import Mathlib

/-!
# Tool-augmented conversation orchestrator: a verification development

This file gives an executable shallow embedding of the conversation
orchestrator of the chatbot repository (`src/azure_openai_client.py`,
`src/mcp_client.py`, `app.py`) and proves properties about it.

Modelling conventions:

* Python numbers (JSON numbers, arithmetic inside the calculator tools)
  are modelled as exact rationals `ℚ`.  Every property proved below only
  evaluates integer-valued numbers, where Python's `str` agrees with the
  decimal rendering used here; binary floating-point rounding and float
  `repr` are not modelled.
* A raised Python exception is modelled as `Except.error` carrying a
  message; a normal return is `Except.ok`.
* The LLM backend is an external collaborator: it is a parameter of type
  `Backend` mapping a request to either a response or a raised error.
* The three file-system tools perform disk access; their implementations
  are a parameter (`FileSystemTools`), as no property proved here
  depends on them.
* `json.loads` of a tool call's serialized argument payload is modelled
  at the decoded level: a payload is `some args` when it decodes to a
  JSON object and `none` when decoding raises `JSONDecodeError`.
-/

/-- Decoded JSON value as consumed by the tool layer.  Tool arguments in
this code base are numbers, strings, or arrays of numbers (the `numbers`
argument of `add`/`multiply`); nested arrays or objects do not occur. -/
inductive JVal where
  | num (q : ℚ)
  | str (s : String)
  | arrNum (elems : List ℚ)
deriving DecidableEq

/-- A decoded JSON object (the result of `json.loads` on a tool call's
argument payload): ordered key/value pairs with unique keys. -/
abbrev ArgsObj := List (String × JVal)

deriving instance DecidableEq for Except

/-- Dictionary lookup, as Python `dict.get` (first matching key). -/
def lookupArg (args : ArgsObj) (k : String) : Option JVal :=
  (args.find? (fun kv => kv.1 == k)).map (fun kv => kv.2)

/-- Rendering of a Python number, used for the `str`/f-string formatting
inside the calculator tools.  For integer-valued rationals this agrees
with Python's `str` of the corresponding `int`; non-integral values
(only produced by float arithmetic, which no proved property evaluates)
are rendered as `num/den`. -/
def fmtNum (q : ℚ) : String :=
  if q.den = 1 then toString q.num else toString q

/-- Round to the nearest integer, ties to even — the rounding mode of
Python's builtin `round`. -/
def roundHalfEven (q : ℚ) : ℤ :=
  let f := q.floor
  let r := q - (f : ℚ)
  if r < 1 / 2 then f
  else if 1 / 2 < r then f + 1
  else if 2 ∣ f then f else f + 1

/-- Python `round(x, p)` modelled over exact rationals (ties to even at
the `p`-th decimal digit).  The source applies it to binary floats,
whose representation edge cases are not modelled; no proved property
evaluates this function. -/
def roundPy (x : ℚ) (p : ℤ) : ℚ :=
  (roundHalfEven (x * (10 : ℚ) ^ p) : ℚ) * (10 : ℚ) ^ (-p)

/-- Left-pad a digit string with zeros to length `k`. -/
def padZeros (s : String) (k : ℕ) : String :=
  String.mk (List.replicate (k - s.length) ('0')) ++ s

/-- Python fixed-point formatting `{x:.kf}` over exact rationals. -/
def fmtFixed (q : ℚ) (k : ℕ) : String :=
  let scaled := roundHalfEven (q * (10 : ℚ) ^ k)
  let sign := if scaled < 0 then "-" else ""
  let a := scaled.natAbs
  sign ++ toString (a / 10 ^ k) ++ (".") ++ padZeros (toString (a % 10 ^ k)) k

/-- Join rendered numbers with a separator (Python `sep.join(map(str, l))`). -/
def joinNums (sep : String) (numbers : List ℚ) : String :=
  String.intercalate sep (numbers.map fmtNum)

/-- Rendering of a decoded JSON value inside an f-string. -/
def jvalStr : JVal → String
  | JVal.num q => fmtNum q
  | JVal.str s => s
  | JVal.arrNum l => ("[") ++ joinNums (", ") l ++ ("]")

/-!
## Calculator tool implementations (`src/mcp_client.py`, `CalculatorTools`)

Each tool body is translated directly.  Where Python would raise
(`TypeError` on unsupported operand types, `KeyError` on an unknown
unit), the model returns `Except.error`; checks occur in the same order
as in the source.
-/

/-- `CalculatorTools.add(*numbers)`: sums its positional arguments
starting from `0` (so the empty call reports `0`) and never raises on
numeric input. -/
def CalculatorTools.add (numbers : List ℚ) : String :=
  let result := numbers.foldl (· + ·) 0
  ("Result: ") ++ fmtNum result ++ ("\nCalculation: ") ++
    joinNums (" + ") numbers ++ (" = ") ++ fmtNum result

/-- `CalculatorTools.subtract(a, b)`.  Non-numeric operands make `a - b`
raise `TypeError` in Python. -/
def CalculatorTools.subtract (a b : JVal) : Except String String :=
  match a, b with
  | JVal.num x, JVal.num y =>
      Except.ok (("Result: ") ++ fmtNum (x - y) ++ ("\nCalculation: ") ++
        fmtNum x ++ (" - ") ++ fmtNum y ++ (" = ") ++ fmtNum (x - y))
  | _, _ => Except.error ("TypeError: unsupported operand types for subtraction")

/-- `CalculatorTools.multiply(*numbers)`: folds `*` over the arguments
starting from `1` (so the empty call reports `1`). -/
def CalculatorTools.multiply (numbers : List ℚ) : String :=
  let result := numbers.foldl (· * ·) 1
  ("Result: ") ++ fmtNum result ++ ("\nCalculation: ") ++
    joinNums (" × ") numbers ++ (" = ") ++ fmtNum result

/-- `CalculatorTools.divide(a, b, precision=2)`.  The `b == 0` test
comes first, exactly as in the source, so a zero divisor returns the
textual error regardless of the other arguments; only afterwards are
operand types relevant (`a / b`, then `round(..., precision)`). -/
def CalculatorTools.divide (a b precision : JVal) : Except String String :=
  if b = JVal.num 0 then Except.ok ("Error: Division by zero")
  else
    match a, b, precision with
    | JVal.num qa, JVal.num qb, JVal.num p =>
        if p.den = 1 then
          let result := roundPy (qa / qb) p.num
          Except.ok (("Result: ") ++ fmtNum result ++ ("\nCalculation: ") ++
            fmtNum qa ++ (" ÷ ") ++ fmtNum qb ++ (" = ") ++ fmtNum result)
        else Except.error ("TypeError: precision cannot be interpreted as an integer")
    | _, _, _ => Except.error ("TypeError: unsupported operand types for division")

/-- `CalculatorTools.factorial(n)`: rejects `n < 0` and `n > 20` with
textual error messages (returned, not raised), otherwise reports `n!`,
with the step-by-step expansion when `n ≤ 5`. -/
def CalculatorTools.factorial (n : ℤ) : String :=
  if n < 0 then "Error: Factorial undefined for negative numbers"
  else if n > 20 then "Error: Factorial limited to n ≤ 20"
  else
    let result := Nat.factorial n.toNat
    let calcText :=
      if n ≤ 5 then
        let steps :=
          if n > 0 then
            String.intercalate (" × ") ((List.range' 1 n.toNat).map (fun i => toString i))
          else "1"
        toString n ++ ("! = ") ++ steps ++ (" = ") ++ toString result
      else toString n ++ ("! = ") ++ toString result
    ("Result: ") ++ toString result ++ ("\nCalculation: ") ++ calcText

/-- `CalculatorTools.convert_temperature(value, from_unit, to_unit)`.
The unit no-op test comes first (and never raises); afterwards the
arithmetic requires a numeric `value`. -/
def CalculatorTools.convert_temperature (value from_unit to_unit : JVal) :
    Except String String :=
  if from_unit = to_unit then
    Except.ok (("Result: ") ++ jvalStr value ++ (" ") ++ jvalStr to_unit ++
      ("\n(No conversion needed)"))
  else
    match value with
    | JVal.num v =>
        let celsius :=
          if from_unit = JVal.str ("F") then (v - 32) * 5 / 9
          else if from_unit = JVal.str ("K") then v - 273.15
          else v
        let result :=
          if to_unit = JVal.str ("F") then celsius * 9 / 5 + 32
          else if to_unit = JVal.str ("K") then celsius + 273.15
          else celsius
        Except.ok (("Result: ") ++ fmtFixed result 2 ++ (" ") ++ jvalStr to_unit ++
          ("\nConversion: ") ++ jvalStr value ++ (" ") ++ jvalStr from_unit ++
          (" = ") ++ fmtFixed result 2 ++ (" ") ++ jvalStr to_unit)
    | _ => Except.error ("TypeError: unsupported operand types for temperature conversion")

/-- Conversion factors into meters (`to_meters` in the source). -/
def to_meters : List (String × ℚ) :=
  [("m", 1), ("ft", 0.3048), ("mi", 1609.34), ("km", 1000)]

/-- Conversion factors out of meters (`from_meters` in the source). -/
def from_meters : List (String × ℚ) :=
  [("m", 1), ("ft", 3.28084), ("mi", 0.000621371), ("km", 0.001)]

/-- Unit display names (`unit_names` in the source). -/
def unit_names : List (String × String) :=
  [("m", "meters"), ("ft", "feet"), ("mi", "miles"), ("km", "kilometers")]

/-- Python dictionary lookup keyed by a decoded JSON value: only string
keys can match the string-keyed tables; a miss is a `KeyError`. -/
def lookupUnit {α : Type} (table : List (String × α)) : JVal → Option α
  | JVal.str s => (table.find? (fun kv => kv.1 == s)).map (fun kv => kv.2)
  | _ => none

/-- `CalculatorTools.convert_distance(value, from_unit, to_unit)`.  The
unit no-op test comes first; then the table lookups (a `KeyError` on an
unknown unit), then the arithmetic on `value`. -/
def CalculatorTools.convert_distance (value from_unit to_unit : JVal) :
    Except String String :=
  if from_unit = to_unit then
    Except.ok (("Result: ") ++ jvalStr value ++ (" ") ++ jvalStr to_unit ++
      ("\n(No conversion needed)"))
  else
    match lookupUnit to_meters from_unit, lookupUnit from_meters to_unit with
    | some tm, some fm =>
        match value with
        | JVal.num v =>
            let meters := v * tm
            let result := meters * fm
            Except.ok (("Result: ") ++ fmtFixed result 4 ++ (" ") ++ jvalStr to_unit ++
              ("\n\nConversion: ") ++ fmtNum v ++ (" ") ++
              ((lookupUnit unit_names from_unit).getD ("")) ++ (" = ") ++
              fmtFixed result 4 ++ (" ") ++ ((lookupUnit unit_names to_unit).getD ("")))
        | _ => Except.error ("TypeError: unsupported operand types for distance conversion")
    | _, _ => Except.error ("KeyError: unknown distance unit")

/-!
## Python call semantics for the registered tools

The dispatcher invokes a tool either positionally with the unpacked
`numbers` array (`tool(*numbers)`, only for `add`/`multiply`) or with
keyword arguments (`tool(**function_args)`).  A `Callable` models one
Python function value under these two calling shapes; keyword binding
raises `TypeError` on missing required arguments or unexpected keywords,
as Python does.
-/

/-- A call shape produced by the dispatcher. -/
inductive PyCall where
  | pos (nums : List ℚ)
  | kw (args : ArgsObj)

/-- A Python tool function value. -/
abbrev Callable := PyCall → Except String String

/-- Keyword binding for a fixed list of required parameter names: every
supplied keyword must be a declared parameter and every declared
parameter must be supplied. -/
def bindKw (names : List String) (args : ArgsObj) : Option (List JVal) :=
  if args.all (fun kv => kv.1 ∈ names) then
    names.mapM (fun n => lookupArg args n)
  else none

/-- `add` as a Python callable (signature `(*numbers)`). -/
def addCallable : Callable
  | PyCall.pos numbers => Except.ok (CalculatorTools.add numbers)
  | PyCall.kw [] => Except.ok (CalculatorTools.add [])
  | PyCall.kw _ => Except.error ("TypeError: add got an unexpected keyword argument")

/-- `multiply` as a Python callable (signature `(*numbers)`). -/
def multiplyCallable : Callable
  | PyCall.pos numbers => Except.ok (CalculatorTools.multiply numbers)
  | PyCall.kw [] => Except.ok (CalculatorTools.multiply [])
  | PyCall.kw _ => Except.error ("TypeError: multiply got an unexpected keyword argument")

/-- `subtract` as a Python callable (signature `(a, b)`). -/
def subtractCallable : Callable
  | PyCall.pos l =>
      match l with
      | [x, y] => CalculatorTools.subtract (JVal.num x) (JVal.num y)
      | _ => Except.error ("TypeError: subtract takes exactly two arguments")
  | PyCall.kw args =>
      match bindKw (["a", "b"]) args with
      | some [a, b] => CalculatorTools.subtract a b
      | _ => Except.error ("TypeError: bad arguments for subtract")

/-- `divide` as a Python callable (signature `(a, b, precision=2)`). -/
def divideCallable : Callable
  | PyCall.pos l =>
      match l with
      | [x, y] => CalculatorTools.divide (JVal.num x) (JVal.num y) (JVal.num 2)
      | [x, y, p] => CalculatorTools.divide (JVal.num x) (JVal.num y) (JVal.num p)
      | _ => Except.error ("TypeError: divide argument count")
  | PyCall.kw args =>
      if args.all (fun kv => kv.1 ∈ (["a", "b", "precision"] : List String)) then
        match lookupArg args "a", lookupArg args "b" with
        | some a, some b =>
            CalculatorTools.divide a b ((lookupArg args "precision").getD (JVal.num 2))
        | _, _ => Except.error ("TypeError: divide missing a required argument")
      else Except.error ("TypeError: divide got an unexpected keyword argument")

/-- `factorial` as a Python callable (signature `(n)`); a non-integral
or non-numeric `n` makes the body raise. -/
def factorialCallable : Callable
  | PyCall.pos l =>
      match l with
      | [q] =>
          if q.den = 1 then Except.ok (CalculatorTools.factorial q.num)
          else Except.error ("TypeError: factorial argument is not an integer")
      | _ => Except.error ("TypeError: factorial takes exactly one argument")
  | PyCall.kw args =>
      match bindKw (["n"]) args with
      | some [JVal.num q] =>
          if q.den = 1 then Except.ok (CalculatorTools.factorial q.num)
          else Except.error ("TypeError: factorial argument is not an integer")
      | some _ => Except.error ("TypeError: factorial argument is not an integer")
      | none => Except.error ("TypeError: bad arguments for factorial")

/-- `convert_temperature` as a Python callable
(signature `(value, from_unit, to_unit)`). -/
def convertTemperatureCallable : Callable
  | PyCall.pos l =>
      match l with
      | [v, f, t] =>
          CalculatorTools.convert_temperature (JVal.num v) (JVal.num f) (JVal.num t)
      | _ => Except.error ("TypeError: convert_temperature argument count")
  | PyCall.kw args =>
      match bindKw (["value", "from_unit", "to_unit"]) args with
      | some [v, f, t] => CalculatorTools.convert_temperature v f t
      | _ => Except.error ("TypeError: bad arguments for convert_temperature")

/-- `convert_distance` as a Python callable
(signature `(value, from_unit, to_unit)`). -/
def convertDistanceCallable : Callable
  | PyCall.pos l =>
      match l with
      | [v, f, t] =>
          CalculatorTools.convert_distance (JVal.num v) (JVal.num f) (JVal.num t)
      | _ => Except.error ("TypeError: convert_distance argument count")
  | PyCall.kw args =>
      match bindKw (["value", "from_unit", "to_unit"]) args with
      | some [v, f, t] => CalculatorTools.convert_distance v f t
      | _ => Except.error ("TypeError: bad arguments for convert_distance")

/-!
## Tool registry (`src/mcp_client.py`, `MCPToolRegistry`)
-/

/-- One registry entry: the callable plus its descriptor, exactly the
dictionary stored per tool by `_register_tools`. -/
structure ToolEntry where
  function : Callable
  description : String
  parameters : List String

/-- The registry: tool name to entry, in insertion order. -/
abbrev Registry := List (String × ToolEntry)

/-- The file-system tool implementations (`FileSystemTools` in the
source) perform disk access; they are supplied as a parameter since no
property proved here depends on their behaviour. -/
structure FileSystemTools where
  list_files : Callable
  read_file : Callable
  search_content : Callable

/-- `MCPToolRegistry._register_tools`: the full tool table. -/
def register_tools (fs : FileSystemTools) : Registry :=
  [("list_files",
    { function := fs.list_files,
      description := "List files in the test directory",
      parameters := ["pattern (optional)"] }),
   ("read_file",
    { function := fs.read_file,
      description := "Read contents of a file",
      parameters := ["filename"] }),
   ("search_files",
    { function := fs.search_content,
      description := "Search for text in files",
      parameters := ["query"] }),
   ("add",
    { function := addCallable,
      description := "Add numbers",
      parameters := ["*numbers"] }),
   ("subtract",
    { function := subtractCallable,
      description := "Subtract two numbers",
      parameters := ["a", "b"] }),
   ("multiply",
    { function := multiplyCallable,
      description := "Multiply numbers",
      parameters := ["*numbers"] }),
   ("divide",
    { function := divideCallable,
      description := "Divide two numbers",
      parameters := ["a", "b", "precision (optional)"] }),
   ("factorial",
    { function := factorialCallable,
      description := "Calculate factorial",
      parameters := ["n"] }),
   ("convert_temperature",
    { function := convertTemperatureCallable,
      description := "Convert temperature (C, F, K)",
      parameters := ["value", "from_unit", "to_unit"] }),
   ("convert_distance",
    { function := convertDistanceCallable,
      description := "Convert distance (m, ft, mi, km)",
      parameters := ["value", "from_unit", "to_unit"] })]

/-- `MCPToolRegistry.get_tool`: dictionary lookup, `none` when absent. -/
def get_tool (r : Registry) (tool_name : String) : Option ToolEntry :=
  (r.find? (fun kv => kv.1 == tool_name)).map (fun kv => kv.2)

/-!
## Schema translator
(`AzureOpenAIClient.get_function_definitions`, lines 26–57)
-/

/-- The schema of one parameter (`type` and `description` fields). -/
structure ParamSchema where
  type : String
  description : String
deriving DecidableEq

/-- One OpenAI function definition: name, description, properties in
declaration order, and the list of required parameter names. -/
structure FunctionDef where
  name : String
  description : String
  properties : List (String × ParamSchema)
  required : List String
deriving DecidableEq

/-- Substring test (Python `needle in hay` on strings). -/
def strContains (needle hay : String) : Bool :=
  (List.range (hay.toList.length + 1)).any
    (fun i => needle.toList.isPrefixOf (hay.toList.drop i))

/-- Python `str.startswith(p)`. -/
def pyStartsWith (s p : String) : Bool :=
  p.toList.isPrefixOf s.toList

/-- Replace every occurrence of `old` by `new`, left to right, over a
character list.  The fuel argument (instantiated with the input length)
only makes the recursion structural; it never runs out when `old` is
non-empty, which holds for every use in the source.  (Python's
behaviour on an empty `old`, inserting `new` between characters, is not
modelled — the source never calls `replace` with an empty pattern.) -/
def replaceLoop (old new : List Char) : ℕ → List Char → List Char
  | _, [] => []
  | 0, l => l
  | fuel + 1, c :: rest =>
    if old.isPrefixOf (c :: rest) then
      new ++ replaceLoop old new fuel ((c :: rest).drop old.length)
    else c :: replaceLoop old new fuel rest

/-- Python `str.replace(old, new)` (all occurrences, left to right). -/
def pyReplace (s old new : String) : String :=
  String.mk (replaceLoop old.toList new.toList s.toList.length s.toList)

/-- `param.replace(" (optional)", "").replace("*", "")`: the schema key
derived from a declared parameter name. -/
def stripParam (param : String) : String :=
  pyReplace (pyReplace param (" (optional)") ("")) ("*") ("")

/-- `is_required = "(optional)" not in param` (line 45). -/
def is_required (param : String) : Bool :=
  !(strContains ("(optional)") param)

/-- The fixed set of parameter names inferred as numeric (line 48). -/
def numeric_param_names : List String := ["a", "b", "value", "n", "precision"]

/-- The property emitted for one declared parameter (lines 44–50). -/
def paramProperty (param : String) : String × ParamSchema :=
  let param_name := stripParam param
  (param_name,
   { type := if param_name ∈ numeric_param_names then "number" else "string",
     description := ("Parameter: ") ++ param })

/-- `AzureOpenAIClient.get_function_definitions`: one function
definition per registry entry, in order; a parameter name goes into
`required` iff it carries no `"(optional)"` marker and does not start
with `"*"` (line 52). -/
def get_function_definitions (tool_registry : Registry) : List FunctionDef :=
  tool_registry.map (fun entry =>
    { name := entry.1,
      description := entry.2.description,
      properties := entry.2.parameters.map paramProperty,
      required :=
        ((entry.2.parameters.filter
            (fun param => is_required param && !(pyStartsWith param ("*")))).map stripParam) })

/-!
## Conversation data model and backend interface
-/

/-- One tool-call request as issued by the backend and stored in the
assistant turn: `id`, function `name`, and the serialized `arguments`
payload (modelled at the decoded level: `none` = undecodable). -/
structure ToolCallReq where
  id : String
  name : String
  arguments : Option ArgsObj
deriving DecidableEq

/-- One entry of `conversation_history` (plus the system preamble that
`_prepare_messages` prepends). -/
inductive Turn where
  | system (content : String)
  | user (content : String)
  | assistant (content : Option String) (tool_calls : List ToolCallReq)
  | tool (tool_call_id : String) (name : String) (content : String)
deriving DecidableEq

/-- The message returned by one backend call: optional text content and
the (possibly empty) ordered list of tool-call requests. -/
structure AssistantMsg where
  content : Option String
  tool_calls : List ToolCallReq
deriving DecidableEq

/-- One request to the chat-completions endpoint: the prepared messages,
the function schema (`none` when tools are disabled or the schema list
is empty), and the sampling parameters. -/
structure BackendRequest where
  messages : List Turn
  tools : Option (List FunctionDef)
  temperature : ℚ
  max_tokens : ℕ

/-- The backend collaborator: a request either yields a response or
raises (network/auth/quota failure, modelled as `Except.error`). -/
abbrev Backend := BackendRequest → Except String AssistantMsg

/-- The orchestrator's mutable state: the full conversation history and
the configured `max_history` bound. -/
structure ChatState where
  history : List Turn
  max_history : ℕ
deriving DecidableEq

/-!
## Orchestrator (`AzureOpenAIClient`, lines 59–241)
-/

/-- The fixed system preamble (`_prepare_messages`, lines 210–221),
including the indentation embedded in the Python triple-quoted string. -/
def system_prompt : String :=
  ("You are a helpful AI assistant with access to various tools.\n\n") ++
  ("            Available tools:\n") ++
  ("            - File operations (list_files, read_file, search_files)\n") ++
  ("            - Calculator operations (add, subtract, multiply, divide, factorial)\n") ++
  ("            - Unit conversions (convert_temperature, convert_distance)\n\n") ++
  ("            When a user asks you to perform operations that these tools can handle, use the appropriate tool.\n") ++
  ("            Always provide clear, helpful responses and explain what you\x27re doing.")

/-- The system message prepended to every backend snapshot. -/
def system_message : Turn := Turn.system system_prompt

/-- Python `l[-k:]` for a natural `k`: the last `k` elements — except
that `l[-0:]` is the whole list (`-0` is `0`). -/
def pyTailSlice {α : Type} (k : ℕ) (l : List α) : List α :=
  if k = 0 then l else l.drop (l.length - k)

/-- `AzureOpenAIClient._prepare_messages` (lines 207–231): the system
preamble followed by the last `max_history` stored turns (all of them
when the history is not longer than `max_history`). -/
def prepare_messages (st : ChatState) : List Turn :=
  system_message ::
    (if st.history.length > st.max_history
     then pyTailSlice st.max_history st.history
     else st.history)

/-- The `tools` argument of the first backend call (lines 79–82 and 91):
built from the registry when tool use is enabled and a registry is
supplied, and replaced by `None` when the resulting list is empty
(Python truthiness of `tools if tools else None`). -/
def chat_tools (tool_registry : Option Registry) (use_tools : Bool) :
    Option (List FunctionDef) :=
  if use_tools then
    match tool_registry with
    | some reg =>
        let function_defs := get_function_definitions reg
        if function_defs.isEmpty then none else some function_defs
    | none => none
  else none

/-- The literal not-found message of line 183. -/
def notFoundMsg (tool_name : String) : String :=
  ("Tool \x27") ++ tool_name ++ ("\x27 not found")

/-- The tool invocation inside the `try` block of the dispatch loop
(lines 156–163): the special-cased `add`/`multiply` receive the decoded
`numbers` array positionally (`tool(*function_args.get("numbers", []))`),
every other tool receives the decoded object as keyword arguments
(`tool(**function_args)`).  Unpacking a non-array `numbers` value raises
`TypeError` inside the `try` (Python's sequence-repetition corner for
`multiply` over an unpacked string is not modelled — no property proved
here evaluates it). -/
def runTool (tool : ToolEntry) (function_name : String) (function_args : ArgsObj) :
    Except String String :=
  if function_name ∈ (["add", "multiply"] : List String) then
    match lookupArg function_args "numbers" with
    | none => tool.function (PyCall.pos [])
    | some (JVal.arrNum l) => tool.function (PyCall.pos l)
    | some _ => Except.error ("TypeError: cannot unpack the numbers argument")
  else tool.function (PyCall.kw function_args)

/-- Content of the appended tool-result turn (lines 165–177): the
tool's text on success, the `"Error executing tool: ..."` text when the
`try` caught a raised failure. -/
def toolResultContent : Except String String → String
  | Except.ok r => r
  | Except.error e => ("Error executing tool: ") ++ e

/-- Dispatch of one tool call (`_handle_tool_calls` loop body, lines
147–184).  Order of effects follows the source exactly:
`json.loads(tool_call.function.arguments)` runs before the `try` block
and before the registry lookup, so an undecodable payload raises out of
the dispatch (an `Except.error`); likewise the lookup on a missing
registry raises.  Everything after `get_tool` sits inside the `try`, so
a tool failure is converted into an error tool-result turn and a found
tool always yields exactly one tool-result turn. -/
def dispatchOne (tool_registry : Option Registry) (tc : ToolCallReq) :
    Except String Turn :=
  match tc.arguments with
  | none => Except.error ("JSONDecodeError: tool call arguments are not valid JSON")
  | some function_args =>
    match tool_registry with
    | none => Except.error ("AttributeError: tool registry is not available")
    | some reg =>
      match get_tool reg tc.name with
      | none => Except.ok (Turn.tool tc.id tc.name (notFoundMsg tc.name))
      | some tool =>
          Except.ok (Turn.tool tc.id tc.name
            (toolResultContent (runTool tool tc.name function_args)))

/-- The dispatch loop of `_handle_tool_calls` (lines 146–184): the tool
results are accumulated in order in a local list; a raised error aborts
the loop before anything is appended to the history. -/
def dispatchAll (tool_registry : Option Registry) :
    List ToolCallReq → Except String (List Turn)
  | [] => Except.ok []
  | tc :: rest =>
    match dispatchOne tool_registry tc with
    | Except.error e => Except.error e
    | Except.ok t =>
      match dispatchAll tool_registry rest with
      | Except.error e => Except.error e
      | Except.ok ts => Except.ok (t :: ts)

/-- The tail of `_handle_tool_calls` after all tool results have been
appended (lines 189–205): one further backend call with no tool schema
(the `create` of line 192 passes no `tools` argument), whose text is
appended as the final assistant turn; a raised backend error propagates
with the state mutated so far. -/
def second_round (backend : Backend) (temperature : ℚ) (max_tokens : ℕ)
    (st2 : ChatState) : ChatState × Except String (Option String) :=
  match backend { messages := prepare_messages st2, tools := none,
                  temperature := temperature, max_tokens := max_tokens } with
  | Except.error e => (st2, Except.error e)
  | Except.ok final_response =>
    ({ st2 with history := st2.history ++ [Turn.assistant final_response.content []] },
     Except.ok final_response.content)

/-- `AzureOpenAIClient._handle_tool_calls` (lines 119–205).  The
assistant turn carrying the requested calls is appended first (line
129); then the calls are dispatched into a local list; then all tool
results are appended at once (line 187); then the second backend round
runs.  The returned `Except.error` models an exception propagating to
`chat`'s handler together with the state already mutated at that
point. -/
def handle_tool_calls (backend : Backend) (tool_registry : Option Registry)
    (temperature : ℚ) (max_tokens : ℕ) (st : ChatState)
    (assistant_message : AssistantMsg) :
    ChatState × Except String (Option String) :=
  let st1 : ChatState :=
    { st with history :=
        st.history ++ [Turn.assistant assistant_message.content assistant_message.tool_calls] }
  match dispatchAll tool_registry assistant_message.tool_calls with
  | Except.error e => (st1, Except.error e)
  | Except.ok tool_results =>
    second_round backend temperature max_tokens
      { st1 with history := st1.history ++ tool_results }

/-- `AzureOpenAIClient.chat` (lines 59–117).  The user turn is appended
unconditionally (line 70, before the `try`); the first backend call and
everything reached from it sit inside the `try`, whose handler converts
any raised error into the returned error string without undoing the
mutations already performed. -/
def chat (backend : Backend) (st : ChatState) (message : String)
    (tool_registry : Option Registry) (use_tools : Bool)
    (temperature : ℚ) (max_tokens : ℕ) : ChatState × Option String :=
  let st1 : ChatState := { st with history := st.history ++ [Turn.user message] }
  let messages := prepare_messages st1
  let tools := chat_tools tool_registry use_tools
  match backend { messages := messages, tools := tools,
                  temperature := temperature, max_tokens := max_tokens } with
  | Except.error e => (st1, some (("Error calling Azure OpenAI: ") ++ e))
  | Except.ok assistant_message =>
    if assistant_message.tool_calls.isEmpty then
      ({ st1 with history := st1.history ++ [Turn.assistant assistant_message.content []] },
       assistant_message.content)
    else
      match handle_tool_calls backend tool_registry temperature max_tokens
              st1 assistant_message with
      | (st2, Except.ok txt) => (st2, txt)
      | (st2, Except.error e) =>
          (st2, some (("Error calling Azure OpenAI: ") ++ e))

/-- `AzureOpenAIClient.clear_history`: empties the history and returns
the prior turn count. -/
def clear_history (st : ChatState) : ChatState × ℕ :=
  ({ st with history := [] }, st.history.length)

/-- `AzureOpenAIClient.get_history_length`: the true stored length. -/
def get_history_length (st : ChatState) : ℕ :=
  st.history.length

/-!
## UI shell entry point (`app.py`, `process_message`, lines 36–67)
-/

/-- The whitespace characters removed by Python `str.strip` (ASCII
range; the unicode extras are irrelevant to the properties proved). -/
def isPySpace (c : Char) : Bool :=
  c == (' ') || c == ('\t') || c == ('\n') || c == ('\r') ||
  c == ('\x0b') || c == ('\x0c')

/-- `not message.strip()` — true iff the message is empty or consists
only of whitespace. -/
def pyIsBlank (s : String) : Bool :=
  s.toList.all isPySpace

/-- One message of the Gradio chat widget's `history` list. -/
structure GradioMsg where
  role : String
  content : Option String
deriving DecidableEq

/-- `process_message` (app.py lines 36–67): the blank-input guard
returns the widget history unchanged without touching the orchestrator;
otherwise the user message and the orchestrator's reply are appended to
the widget history.  `chat` handles every raised error internally, so
the surrounding `try` of the source is unreachable and not modelled.
The second component of the returned pair is the cleared textbox
value. -/
def process_message (backend : Backend) (tool_registry : Registry)
    (message : String) (history : List GradioMsg) (use_tools : Bool)
    (temperature : ℚ) (st : ChatState) :
    (List GradioMsg × String) × ChatState :=
  if pyIsBlank message then ((history, ""), st)
  else
    let history1 := history ++ [{ role := "user", content := some message }]
    let res := chat backend st message
      (if use_tools then some tool_registry else none) use_tools temperature 2000
    ((history1 ++ [{ role := "assistant", content := res.2 }], ""), res.1)

/-!
## Concrete objects used to evaluate the model
-/

/-- An arbitrary instantiation of the file-system collaborator, used to
evaluate the registry and the orchestrator at concrete inputs; no
property evaluated below depends on its behaviour. -/
def fsU : FileSystemTools :=
  { list_files := fun _ => Except.ok (""),
    read_file := fun _ => Except.ok (""),
    search_content := fun _ => Except.ok ("") }

/-- Recognizer for tool-result turns of the history. -/
def isToolResultTurn : Turn → Bool
  | Turn.tool _ _ _ => true
  | _ => false

/-- A scripted backend whose first (tool-offering) call requests one
well-formed and one malformed `divide` call, used to evaluate the
dispatch of a batch with an undecodable argument payload. -/
def c2Backend : Backend := fun req =>
  match req.tools with
  | some _ => Except.ok
      { content := none,
        tool_calls :=
          [{ id := "b1", name := "divide", arguments := none },
           { id := "b2", name := "divide",
             arguments := some [("a", JVal.num 4), ("b", JVal.num 2)] }] }
  | none => Except.ok { content := some ("unreached"), tool_calls := [] }

/-- A scripted backend whose first (tool-offering) call requests one
`divide` call and whose second (tool-less) call raises, used to
evaluate a failure of the second backend round. -/
def c3Backend : Backend := fun req =>
  match req.tools with
  | some _ => Except.ok
      { content := none,
        tool_calls :=
          [{ id := "c1", name := "divide",
             arguments := some [("a", JVal.num 10), ("b", JVal.num 0)] }] }
  | none => Except.error ("boom")

/-- A scripted backend whose first (tool-offering) call requests
`divide(a=10, b=0)` and whose second (tool-less) call returns a final
answer, realizing the division-by-zero scenario. -/
def c8Backend : Backend := fun req =>
  match req.tools with
  | some _ => Except.ok
      { content := none,
        tool_calls :=
          [{ id := "call_1", name := "divide",
             arguments := some [("a", JVal.num 10), ("b", JVal.num 0)] }] }
  | none => Except.ok
      { content := some ("10 divided by 0 is undefined."), tool_calls := [] }

/-- The value of `get_function_definitions` on the repository's
registry, written out: one definition per tool in registration order.
Note the `*numbers` parameter of `add` and `multiply`: its schema key is
the stripped name `numbers`, its inferred type is `"string"` (the
numeric-name set does not contain `numbers`), and it is absent from
`required`. -/
def expected_function_definitions : List FunctionDef :=
  [{ name := "list_files", description := "List files in the test directory",
     properties := [("pattern", { type := "string", description := "Parameter: pattern (optional)" })],
     required := [] },
   { name := "read_file", description := "Read contents of a file",
     properties := [("filename", { type := "string", description := "Parameter: filename" })],
     required := ["filename"] },
   { name := "search_files", description := "Search for text in files",
     properties := [("query", { type := "string", description := "Parameter: query" })],
     required := ["query"] },
   { name := "add", description := "Add numbers",
     properties := [("numbers", { type := "string", description := "Parameter: *numbers" })],
     required := [] },
   { name := "subtract", description := "Subtract two numbers",
     properties := [("a", { type := "number", description := "Parameter: a" }),
                    ("b", { type := "number", description := "Parameter: b" })],
     required := ["a", "b"] },
   { name := "multiply", description := "Multiply numbers",
     properties := [("numbers", { type := "string", description := "Parameter: *numbers" })],
     required := [] },
   { name := "divide", description := "Divide two numbers",
     properties := [("a", { type := "number", description := "Parameter: a" }),
                    ("b", { type := "number", description := "Parameter: b" }),
                    ("precision", { type := "number", description := "Parameter: precision (optional)" })],
     required := ["a", "b"] },
   { name := "factorial", description := "Calculate factorial",
     properties := [("n", { type := "number", description := "Parameter: n" })],
     required := ["n"] },
   { name := "convert_temperature", description := "Convert temperature (C, F, K)",
     properties := [("value", { type := "number", description := "Parameter: value" }),
                    ("from_unit", { type := "string", description := "Parameter: from_unit" }),
                    ("to_unit", { type := "string", description := "Parameter: to_unit" })],
     required := ["value", "from_unit", "to_unit"] },
   { name := "convert_distance", description := "Convert distance (m, ft, mi, km)",
     properties := [("value", { type := "number", description := "Parameter: value" }),
                    ("from_unit", { type := "string", description := "Parameter: from_unit" }),
                    ("to_unit", { type := "string", description := "Parameter: to_unit" })],
     required := ["value", "from_unit", "to_unit"] }]

/-!
## Shared lemmas
-/

/-- String concatenation is associative. -/
theorem str_append_assoc (a b c : String) : a ++ b ++ c = a ++ (b ++ c) := by
  cases a with
  | mk la =>
    cases b with
    | mk lb =>
      cases c with
      | mk lc =>
        show String.mk (la ++ lb ++ lc) = String.mk (la ++ (lb ++ lc))
        rw [List.append_assoc]

/-- A call whose payload decodes is dispatched (against a present
registry) to exactly one tool-result turn carrying its id and name. -/
theorem dispatchOne_ok (reg : Registry) (tc : ToolCallReq) (args : ArgsObj)
    (h : tc.arguments = some args) :
    ∃ content, dispatchOne (some reg) tc = Except.ok (Turn.tool tc.id tc.name content) := by
  obtain ⟨tid, tname, targs⟩ := tc
  dsimp only at h ⊢
  subst h
  cases hg : get_tool reg tname with
  | none =>
      refine ⟨notFoundMsg tname, ?_⟩
      unfold dispatchOne
      dsimp only
      rw [hg]
  | some tool =>
      refine ⟨toolResultContent (runTool tool tname args), ?_⟩
      unfold dispatchOne
      dsimp only
      rw [hg]

/-- When every payload of a batch decodes, the dispatch loop succeeds
and returns one tool-result turn per call, in order, pairing each turn
with its call's id and name. -/
theorem dispatchAll_ok (reg : Registry) (calls : List ToolCallReq)
    (h : ∀ tc ∈ calls, tc.arguments.isSome) :
    ∃ contents : List String, contents.length = calls.length ∧
      dispatchAll (some reg) calls =
        Except.ok (List.zipWith (fun tc content => Turn.tool tc.id tc.name content)
          calls contents) := by
  induction calls with
  | nil => exact ⟨[], rfl, rfl⟩
  | cons tc rest ih =>
    obtain ⟨args, hargs⟩ := Option.isSome_iff_exists.mp (h tc (by simp))
    obtain ⟨c, hc⟩ := dispatchOne_ok reg tc args hargs
    obtain ⟨cs, hlen, hall⟩ := ih (fun x hx => h x (by simp [hx]))
    refine ⟨c :: cs, by simp [hlen], ?_⟩
    simp only [dispatchAll]
    rw [hc, hall]
    rfl

/-- A batch containing a call whose payload does not decode makes the
dispatch loop raise. -/
theorem dispatchAll_error_of_none (tr : Option Registry) (calls : List ToolCallReq)
    (tc : ToolCallReq) (hmem : tc ∈ calls) (hargs : tc.arguments = none) :
    ∃ e, dispatchAll tr calls = Except.error e := by
  induction calls with
  | nil => cases hmem
  | cons hd rest ih =>
    rcases List.mem_cons.mp hmem with rfl | hmem2
    · refine ⟨"JSONDecodeError: tool call arguments are not valid JSON", ?_⟩
      have h1 : dispatchOne tr tc =
          Except.error ("JSONDecodeError: tool call arguments are not valid JSON") := by
        unfold dispatchOne
        rw [hargs]
      simp only [dispatchAll]
      rw [h1]
    · cases hd1 : dispatchOne tr hd with
      | error e => exact ⟨e, by simp only [dispatchAll]; rw [hd1]⟩
      | ok t =>
        obtain ⟨e, he⟩ := ih hmem2
        exact ⟨e, by simp only [dispatchAll]; rw [hd1, he]⟩

/-- The second backend round appends either nothing (backend raised) or
exactly one final assistant turn to the state it receives. -/
theorem second_round_history (backend : Backend) (temperature : ℚ) (max_tokens : ℕ)
    (st2 : ChatState) :
    ∃ tail, (second_round backend temperature max_tokens st2).1.history =
        st2.history ++ tail ∧ (tail = [] ∨ ∃ c, tail = [Turn.assistant c []]) := by
  unfold second_round
  cases backend { messages := prepare_messages st2, tools := none,
                  temperature := temperature, max_tokens := max_tokens } with
  | error e => exact ⟨[], by simp, Or.inl rfl⟩
  | ok final_response =>
    exact ⟨[Turn.assistant final_response.content []], rfl,
      Or.inr ⟨final_response.content, rfl⟩⟩

/-- When the dispatch loop succeeds, `_handle_tool_calls` leaves the
history as: prior history, the assistant tool-call turn, all tool
results, and at most one final assistant turn. -/
theorem handle_tool_calls_history (backend : Backend) (tr : Option Registry)
    (temperature : ℚ) (max_tokens : ℕ) (st : ChatState) (am : AssistantMsg)
    (results : List Turn) (h : dispatchAll tr am.tool_calls = Except.ok results) :
    ∃ tail, (handle_tool_calls backend tr temperature max_tokens st am).1.history =
      (st.history ++ [Turn.assistant am.content am.tool_calls] ++ results) ++ tail ∧
      (tail = [] ∨ ∃ c, tail = [Turn.assistant c []]) := by
  unfold handle_tool_calls
  rw [h]
  exact second_round_history backend temperature max_tokens
    { history := st.history ++ [Turn.assistant am.content am.tool_calls] ++ results,
      max_history := st.max_history }

/-!
## Claim theorems
-/

/-- C1 (amended).  For every backend response whose tool-call requests
all carry decodable argument payloads, `_handle_tool_calls` appends
exactly N tool-result turns for N requests, in request order, each
pairing the `tool_call_id` and name of its originating request, placed
directly after the assistant tool-call turn and before the (at most
one) final assistant turn produced by the second backend call.  (As
stated, the claim fails when a payload does not decode: see the
counterexample, where zero tool-result turns are appended.) -/
theorem C1_call_result_pairing (backend : Backend) (reg : Registry)
    (temperature : ℚ) (max_tokens : ℕ) (st : ChatState) (am : AssistantMsg)
    (hdec : ∀ tc ∈ am.tool_calls, tc.arguments.isSome) :
    ∃ (contents : List String) (tail : List Turn),
      contents.length = am.tool_calls.length ∧
      (handle_tool_calls backend (some reg) temperature max_tokens st am).1.history =
        st.history ++ [Turn.assistant am.content am.tool_calls] ++
          List.zipWith (fun tc content => Turn.tool tc.id tc.name content)
            am.tool_calls contents ++ tail ∧
      (tail = [] ∨ ∃ c, tail = [Turn.assistant c []]) := by
  obtain ⟨contents, hlen, hall⟩ := dispatchAll_ok reg am.tool_calls hdec
  obtain ⟨tail, htail, hshape⟩ :=
    handle_tool_calls_history backend (some reg) temperature max_tokens st am _ hall
  exact ⟨contents, tail, hlen, htail, hshape⟩

/-- Witness for C1: a concrete two-call batch (one known tool, one
unknown tool, both with decodable payloads). -/
theorem C1_call_result_pairing_witness :
    ∃ (contents : List String) (tail : List Turn),
      contents.length =
        ([{ id := "w1", name := "add", arguments := some [] },
          { id := "w2", name := "ghost", arguments := some [] }] : List ToolCallReq).length ∧
      (handle_tool_calls (fun _ => Except.ok { content := some ("done"), tool_calls := [] })
          (some (register_tools fsU)) 1 10
          { history := [Turn.user ("hi")], max_history := 50 }
          { content := none,
            tool_calls := [{ id := "w1", name := "add", arguments := some [] },
                           { id := "w2", name := "ghost", arguments := some [] }] }).1.history =
        ({ history := [Turn.user ("hi")], max_history := 50 } : ChatState).history ++
          [Turn.assistant none
            [{ id := "w1", name := "add", arguments := some [] },
             { id := "w2", name := "ghost", arguments := some [] }]] ++
          List.zipWith (fun (tc : ToolCallReq) (content : String) => Turn.tool tc.id tc.name content)
            ([{ id := "w1", name := "add", arguments := some [] },
              { id := "w2", name := "ghost", arguments := some [] }] : List ToolCallReq)
            contents ++ tail ∧
      (tail = [] ∨ ∃ c, tail = [Turn.assistant c []]) :=
  C1_call_result_pairing
    (fun _ => Except.ok { content := some ("done"), tool_calls := [] })
    (register_tools fsU) 1 10
    { history := [Turn.user ("hi")], max_history := 50 }
    { content := none,
      tool_calls := [{ id := "w1", name := "add", arguments := some [] },
                     { id := "w2", name := "ghost", arguments := some [] }] }
    (by decide)

/-- Counterexample to C1 as stated: a response with N = 1 tool-call
request whose payload does not decode makes `_handle_tool_calls` raise
after appending only the assistant tool-call turn — zero tool-result
turns are appended, not one, and no second backend call is issued. -/
theorem C1_undecodable_counterexample :
    handle_tool_calls (fun _ => Except.ok { content := some ("x"), tool_calls := [] })
        (some (register_tools fsU)) 1 10 { history := [Turn.user ("q")], max_history := 50 }
        { content := none, tool_calls := [{ id := "k1", name := "add", arguments := none }] } =
      ({ history := [Turn.user ("q"),
                     Turn.assistant none [{ id := "k1", name := "add", arguments := none }]],
         max_history := 50 },
       Except.error ("JSONDecodeError: tool call arguments are not valid JSON")) ∧
    ([{ id := "k1", name := "add", arguments := none }] : List ToolCallReq).length = 1 ∧
    ((handle_tool_calls (fun _ => Except.ok { content := some ("x"), tool_calls := [] })
        (some (register_tools fsU)) 1 10 { history := [Turn.user ("q")], max_history := 50 }
        { content := none,
          tool_calls := [{ id := "k1", name := "add", arguments := none }] }).1.history.filter
      isToolResultTurn).length = 0 := by
  decide

/-- C2 (amended).  A tool-call request whose serialized argument
payload cannot be decoded raises out of the dispatch loop
(`json.loads` runs before the per-call `try`): no error tool-result
turn is produced for it, the remaining calls of the batch are not
dispatched, and `_handle_tool_calls` returns with only the assistant
tool-call turn appended and the error propagating to `chat`'s top-level
handler.  (As stated, the claim — per-call error turn, batch
continues — fails: see the counterexample.) -/
theorem C2_malformed_arguments_abort (backend : Backend) (tr : Option Registry)
    (temperature : ℚ) (max_tokens : ℕ) (st : ChatState) (am : AssistantMsg)
    (h : ∃ tc ∈ am.tool_calls, tc.arguments = none) :
    ∃ e, handle_tool_calls backend tr temperature max_tokens st am =
      ({ st with history := st.history ++ [Turn.assistant am.content am.tool_calls] },
       Except.error e) := by
  obtain ⟨tc, hmem, hargs⟩ := h
  obtain ⟨e, he⟩ := dispatchAll_error_of_none tr am.tool_calls tc hmem hargs
  refine ⟨e, ?_⟩
  unfold handle_tool_calls
  rw [he]

/-- Witness for C2: a single-call batch with an undecodable payload. -/
theorem C2_malformed_arguments_abort_witness :
    ∃ e, handle_tool_calls (fun _ => Except.ok { content := some ("x"), tool_calls := [] })
        (some (register_tools fsU)) 1 10 { history := [], max_history := 50 }
        { content := none,
          tool_calls := [{ id := "m1", name := "divide", arguments := none }] } =
      ({ history := [Turn.assistant none [{ id := "m1", name := "divide", arguments := none }]],
         max_history := 50 },
       Except.error e) :=
  C2_malformed_arguments_abort
    (fun _ => Except.ok { content := some ("x"), tool_calls := [] })
    (some (register_tools fsU)) 1 10 { history := [], max_history := 50 }
    { content := none, tool_calls := [{ id := "m1", name := "divide", arguments := none }] }
    ⟨{ id := "m1", name := "divide", arguments := none }, by decide, rfl⟩

/-- Counterexample to C2 as stated: a batch whose first call has an
undecodable payload and whose second call is a well-formed `divide`.
The whole turn ends with a single top-level error string; no tool-result
turn is appended for either call (the second call is never dispatched),
refuting both the per-call error turn and the continuation of the
batch. -/
theorem C2_per_call_error_counterexample :
    chat c2Backend { history := [], max_history := 50 } ("hi")
        (some (register_tools fsU)) true 1 10 =
      ({ history :=
          [Turn.user ("hi"),
           Turn.assistant none
             [{ id := "b1", name := "divide", arguments := none },
              { id := "b2", name := "divide",
                arguments := some [("a", JVal.num 4), ("b", JVal.num 2)] }]],
         max_history := 50 },
       some ("Error calling Azure OpenAI: JSONDecodeError: tool call arguments are not valid JSON")) ∧
    ((chat c2Backend { history := [], max_history := 50 } ("hi")
        (some (register_tools fsU)) true 1 10).1.history.filter isToolResultTurn).length = 0 := by
  decide

/-- C7 (amended).  Dispatching a call whose tool name is absent from
the registry and whose argument payload decodes never raises: it yields
exactly one tool-result turn carrying the literal `"Tool '...' not
found"` message, and — provided their payloads decode — every other
call of the batch, before and after it, is still dispatched to exactly
one tool-result turn.  (As stated — for every call with an unknown
name — the claim fails because `json.loads` precedes the registry
lookup: an unknown-tool call with an undecodable payload raises; see
the counterexample.) -/
theorem C7_unknown_tool_safety (reg : Registry) (pre post : List ToolCallReq)
    (tc : ToolCallReq) (args : ArgsObj) (hargs : tc.arguments = some args)
    (hnf : get_tool reg tc.name = none)
    (hdec : ∀ c ∈ pre ++ post, c.arguments.isSome) :
    ∃ rpre rpost : List Turn,
      rpre.length = pre.length ∧ rpost.length = post.length ∧
      dispatchAll (some reg) (pre ++ tc :: post) =
        Except.ok (rpre ++ Turn.tool tc.id tc.name (notFoundMsg tc.name) :: rpost) := by
  have htc : dispatchOne (some reg) tc =
      Except.ok (Turn.tool tc.id tc.name (notFoundMsg tc.name)) := by
    obtain ⟨tid, tname, targs⟩ := tc
    dsimp only at hargs hnf ⊢
    subst hargs
    unfold dispatchOne
    dsimp only
    rw [hnf]
  revert hdec
  induction pre with
  | nil =>
      intro hdec
      obtain ⟨cs, hlen, hall⟩ := dispatchAll_ok reg post (fun c hc => hdec c (by simpa using hc))
      refine ⟨[], List.zipWith (fun c content => Turn.tool c.id c.name content) post cs,
        rfl, ?_, ?_⟩
      · simp [List.length_zipWith, hlen]
      · have h0 : dispatchAll (some reg) ([] ++ tc :: post) =
            match dispatchOne (some reg) tc with
            | Except.error e => Except.error e
            | Except.ok t =>
              match dispatchAll (some reg) post with
              | Except.error e => Except.error e
              | Except.ok ts => Except.ok (t :: ts) := rfl
        rw [h0, htc, hall]
        rfl
  | cons hd tl ih =>
      intro hdec
      have hhd : hd.arguments.isSome := hdec hd (by simp)
      obtain ⟨hargs2, hha⟩ := Option.isSome_iff_exists.mp hhd
      obtain ⟨c, hc⟩ := dispatchOne_ok reg hd hargs2 hha
      obtain ⟨rpre, rpost, h1, h2, h3⟩ := ih (fun c hc => hdec c (by
        rcases List.mem_append.mp hc with h | h
        · exact List.mem_append.mpr (Or.inl (List.mem_cons_of_mem _ h))
        · exact List.mem_append.mpr (Or.inr h)))
      refine ⟨Turn.tool hd.id hd.name c :: rpre, rpost, by simp [h1], h2, ?_⟩
      have h0 : dispatchAll (some reg) ((hd :: tl) ++ tc :: post) =
          match dispatchOne (some reg) hd with
          | Except.error e => Except.error e
          | Except.ok t =>
            match dispatchAll (some reg) (tl ++ tc :: post) with
            | Except.error e => Except.error e
            | Except.ok ts => Except.ok (t :: ts) := rfl
      rw [h0, hc, h3]
      rfl

/-- Witness for C7: an unknown-tool call between two known calls. -/
theorem C7_unknown_tool_safety_witness :
    ∃ rpre rpost : List Turn,
      rpre.length = ([{ id := "p1", name := "add", arguments := some [] }] : List ToolCallReq).length ∧
      rpost.length = ([{ id := "p2", name := "factorial",
                         arguments := some [("n", JVal.num 3)] }] : List ToolCallReq).length ∧
      dispatchAll (some (register_tools fsU))
          ([{ id := "p1", name := "add", arguments := some [] }] ++
            { id := "u1", name := "ghost", arguments := some ([] : ArgsObj) } ::
              [{ id := "p2", name := "factorial", arguments := some [("n", JVal.num 3)] }]) =
        Except.ok (rpre ++
          Turn.tool "u1" "ghost" (notFoundMsg ("ghost")) :: rpost) :=
  C7_unknown_tool_safety (register_tools fsU)
    [{ id := "p1", name := "add", arguments := some [] }]
    [{ id := "p2", name := "factorial", arguments := some [("n", JVal.num 3)] }]
    { id := "u1", name := "ghost", arguments := some [] } [] rfl rfl (by decide)

/-- Counterexample to C7 as stated: an unknown-tool call whose payload
does not decode raises (the decode precedes the lookup), appends no
tool-result turn at all, and prevents the dispatch of the following
well-formed call. -/
theorem C7_undecodable_unknown_counterexample :
    dispatchAll (some (register_tools fsU))
        [{ id := "u1", name := "ghost", arguments := none },
         { id := "u2", name := "subtract",
           arguments := some [("a", JVal.num 5), ("b", JVal.num 3)] }] =
      Except.error ("JSONDecodeError: tool call arguments are not valid JSON") ∧
    ((handle_tool_calls (fun _ => Except.ok { content := some ("x"), tool_calls := [] })
        (some (register_tools fsU)) 1 10 { history := [], max_history := 50 }
        { content := none,
          tool_calls := [{ id := "u1", name := "ghost", arguments := none },
                         { id := "u2", name := "subtract",
                           arguments := some [("a", JVal.num 5), ("b", JVal.num 3)] }] }).1.history.filter
      isToolResultTurn).length = 0 := by
  decide

/-- C3 (amended).  Whenever an exception escapes the FIRST backend call
of a user turn, `chat` catches it, returns the single error string
`"Error calling Azure OpenAI: ..."`, and appends no assistant turn: the
history gains only the user's message.  (As stated — for every backend
call — the claim fails: when the SECOND call raises, the assistant
tool-call turn and the tool-result turns remain in history; see the
counterexample.) -/
theorem C3_first_backend_failure_clean (backend : Backend) (st : ChatState)
    (message : String) (tool_registry : Option Registry) (use_tools : Bool)
    (temperature : ℚ) (max_tokens : ℕ) (e : String)
    (h : backend
        { messages := prepare_messages
            { st with history := st.history ++ [Turn.user message] },
          tools := chat_tools tool_registry use_tools,
          temperature := temperature, max_tokens := max_tokens } = Except.error e) :
    chat backend st message tool_registry use_tools temperature max_tokens =
      ({ st with history := st.history ++ [Turn.user message] },
       some (("Error calling Azure OpenAI: ") ++ e)) := by
  simp only [chat]
  rw [h]

/-- Witness for C3: a backend that always raises. -/
theorem C3_first_backend_failure_clean_witness :
    chat (fun _ => Except.error ("netfail")) { history := [], max_history := 50 }
        ("hello") none false 1 10 =
      ({ history := [Turn.user ("hello")], max_history := 50 },
       some (("Error calling Azure OpenAI: ") ++ ("netfail"))) :=
  C3_first_backend_failure_clean (fun _ => Except.error ("netfail"))
    { history := [], max_history := 50 } ("hello") none false 1 10 ("netfail") rfl

/-- Counterexample to C3 as stated: the first backend call requests a
tool, the second raises.  The error string is returned, but the history
now holds the user turn, the assistant tool-call turn and a tool-result
turn — it does not reflect only the user's message. -/
theorem C3_second_backend_failure_counterexample :
    chat c3Backend { history := [], max_history := 50 } ("please divide")
        (some (register_tools fsU)) true 1 10 =
      ({ history :=
          [Turn.user ("please divide"),
           Turn.assistant none
             [{ id := "c1", name := "divide",
                arguments := some [("a", JVal.num 10), ("b", JVal.num 0)] }],
           Turn.tool "c1" "divide" ("Error: Division by zero")],
         max_history := 50 },
       some ("Error calling Azure OpenAI: boom")) ∧
    (chat c3Backend { history := [], max_history := 50 } ("please divide")
        (some (register_tools fsU)) true 1 10).1.history ≠
      [Turn.user ("please divide")] := by
  decide

/-- C4 (amended).  The empty/whitespace-input guard lives in the UI
entry point `process_message`, which returns the widget history
unchanged, leaves the conversation store untouched, and never invokes
the orchestrator.  (As stated — about the orchestrator — the claim
fails: `chat` called directly with a whitespace-only message appends it
and issues a backend call; see the counterexample.) -/
theorem C4_blank_input_guard_in_shell (backend : Backend) (tool_registry : Registry)
    (message : String) (history : List GradioMsg) (use_tools : Bool)
    (temperature : ℚ) (st : ChatState)
    (h : pyIsBlank message = true) :
    process_message backend tool_registry message history use_tools temperature st =
      ((history, ""), st) := by
  simp only [process_message, h]
  rfl

/-- Witness for C4: a whitespace-only message through the UI entry
point. -/
theorem C4_blank_input_guard_in_shell_witness :
    process_message (fun _ => Except.ok { content := some ("hi"), tool_calls := [] })
        (register_tools fsU) ("   ") [] true 1 { history := [], max_history := 50 } =
      (([], ""), { history := [], max_history := 50 }) :=
  C4_blank_input_guard_in_shell
    (fun _ => Except.ok { content := some ("hi"), tool_calls := [] })
    (register_tools fsU) ("   ") [] true 1 { history := [], max_history := 50 } (by decide)

/-- Counterexample to C4 as stated: the orchestrator (`chat`) itself,
given a whitespace-only message, mutates state — it appends the user
turn (and the backend's reply), so the conversation is not returned
unmodified. -/
theorem C4_chat_blank_input_counterexample :
    chat (fun _ => Except.ok { content := some ("hello"), tool_calls := [] })
        { history := [], max_history := 50 } (" ") none false 1 10 =
      ({ history := [Turn.user (" "), Turn.assistant (some ("hello")) []],
         max_history := 50 },
       some ("hello")) ∧
    (chat (fun _ => Except.ok { content := some ("hello"), tool_calls := [] })
        { history := [], max_history := 50 } (" ") none false 1 10).1.history ≠
      ([] : List Turn) := by
  decide

/-- C5 (amended).  Provided `max_history ≥ 1`: for a history of M turns
with M > `max_history`, the snapshot sent to the backend is exactly the
fixed system preamble followed by the last `max_history` stored turns;
when M ≤ `max_history` it is the preamble followed by all stored turns;
and `get_history_length` always reports the true total M.  (As stated —
for every configuration — the claim fails at `max_history = 0`, where
Python's `history[-0:]` is the whole list; see the counterexample.) -/
theorem C5_history_bound (st : ChatState) (h : 1 ≤ st.max_history) :
    get_history_length st = st.history.length ∧
    (st.max_history < st.history.length →
      prepare_messages st =
        system_message :: st.history.drop (st.history.length - st.max_history) ∧
      (st.history.drop (st.history.length - st.max_history)).length = st.max_history) ∧
    (st.history.length ≤ st.max_history →
      prepare_messages st = system_message :: st.history) := by
  refine ⟨rfl, ?_, ?_⟩
  · intro hlt
    constructor
    · unfold prepare_messages pyTailSlice
      rw [if_pos hlt, if_neg (by omega)]
    · rw [List.length_drop]
      omega
  · intro hle
    unfold prepare_messages
    rw [if_neg (by omega)]

/-- Witness for C5: three stored turns, `max_history = 2`. -/
theorem C5_history_bound_witness :
    get_history_length
        { history := [Turn.user ("a"), Turn.user ("b"), Turn.user ("c")], max_history := 2 } =
      ([Turn.user ("a"), Turn.user ("b"), Turn.user ("c")] : List Turn).length ∧
    (2 < ([Turn.user ("a"), Turn.user ("b"), Turn.user ("c")] : List Turn).length →
      prepare_messages
          { history := [Turn.user ("a"), Turn.user ("b"), Turn.user ("c")], max_history := 2 } =
        system_message ::
          ([Turn.user ("a"), Turn.user ("b"), Turn.user ("c")] : List Turn).drop
            (([Turn.user ("a"), Turn.user ("b"), Turn.user ("c")] : List Turn).length - 2) ∧
      (([Turn.user ("a"), Turn.user ("b"), Turn.user ("c")] : List Turn).drop
          (([Turn.user ("a"), Turn.user ("b"), Turn.user ("c")] : List Turn).length - 2)).length = 2) ∧
    (([Turn.user ("a"), Turn.user ("b"), Turn.user ("c")] : List Turn).length ≤ 2 →
      prepare_messages
          { history := [Turn.user ("a"), Turn.user ("b"), Turn.user ("c")], max_history := 2 } =
        system_message :: [Turn.user ("a"), Turn.user ("b"), Turn.user ("c")]) :=
  C5_history_bound
    { history := [Turn.user ("a"), Turn.user ("b"), Turn.user ("c")], max_history := 2 }
    (by decide)

/-- Counterexample to C5 as stated: with `max_history = 0` and one
stored turn (M = 1 > 0), the snapshot contains that stored turn — not
zero stored turns — because Python's `history[-0:]` is the whole
list. -/
theorem C5_zero_max_history_counterexample :
    prepare_messages { history := [Turn.user ("a")], max_history := 0 } =
      [system_message, Turn.user ("a")] ∧
    (prepare_messages { history := [Turn.user ("a")], max_history := 0 }).length ≠ 1 ∧
    ({ history := [Turn.user ("a")], max_history := 0 } : ChatState).history.length > 0 := by
  refine ⟨rfl, by decide, by decide⟩

/-- C6 (amended).  The translator's output on the repository's registry
is exactly `expected_function_definitions` (independent of the
file-system implementations).  In it, the variadic parameter `*numbers`
of `add`/`multiply` is surfaced as the single schema property `numbers`
of STRING type — not array type, because the name-based rule types a
property as `"number"` iff its stripped name lies in
`{a, b, value, n, precision}` and as `"string"` otherwise — and is
never listed as required; every other parameter is required iff its
declared name carries no `"(optional)"` marker (and is not variadic),
with numeric type exactly on the fixed numeric-name set. -/
theorem C6_schema_translation (fs : FileSystemTools) :
    get_function_definitions (register_tools fs) = expected_function_definitions ∧
    (∀ f ∈ expected_function_definitions, ∀ pr ∈ f.properties,
      (pr.2.type = "number" ↔ pr.1 ∈ numeric_param_names)) ∧
    (∀ f ∈ expected_function_definitions,
      (f.name = "add" ∨ f.name = "multiply") →
        f.properties = [("numbers", { type := "string", description := "Parameter: *numbers" })] ∧
        f.required = []) ∧
    (∀ i < 10, ((register_tools fs).get? i).map
        (fun kv => ((kv.2.parameters.filter
            (fun param => is_required param && !(pyStartsWith param ("*")))).map stripParam)) =
      (expected_function_definitions.get? i).map FunctionDef.required) := by
  refine ⟨rfl, by decide, by decide, ?_⟩
  intro i hi
  interval_cases i <;> rfl

/-- Counterexample to C6 as stated: in the schema of the repository's
registry, the variadic `*numbers` parameter of `add` is surfaced with
type `"string"`, which is not the array type the claim asserts. -/
theorem C6_variadic_array_type_counterexample :
    ((get_function_definitions (register_tools fsU)).get? 3).map FunctionDef.name =
      some ("add") ∧
    ((get_function_definitions (register_tools fsU)).get? 3).map FunctionDef.properties =
      some [("numbers", { type := "string", description := "Parameter: *numbers" })] ∧
    ("string" : String) ≠ "array" := by
  refine ⟨rfl, rfl, by decide⟩

/-- C8 (confirmed).  For every dividend `a` and precision `p` (indeed
for arbitrary decoded argument values), invoking the `divide` tool with
divisor 0 returns the text `"Error: Division by zero"` and does not
raise — with or without an explicit precision; and a dispatch round
containing such a call still proceeds to the second backend call, which
returns the final assistant turn. -/
theorem C8_divide_by_zero_round_trip :
    (∀ a p : JVal,
      divideCallable (PyCall.kw [("a", a), ("b", JVal.num 0), ("precision", p)]) =
        Except.ok ("Error: Division by zero")) ∧
    (∀ a : JVal,
      divideCallable (PyCall.kw [("a", a), ("b", JVal.num 0)]) =
        Except.ok ("Error: Division by zero")) ∧
    chat c8Backend { history := [], max_history := 50 } ("What is 10 divided by 0?")
        (some (register_tools fsU)) true 1 10 =
      ({ history :=
          [Turn.user ("What is 10 divided by 0?"),
           Turn.assistant none
             [{ id := "call_1", name := "divide",
                arguments := some [("a", JVal.num 10), ("b", JVal.num 0)] }],
           Turn.tool "call_1" "divide" ("Error: Division by zero"),
           Turn.assistant (some ("10 divided by 0 is undefined.")) []],
         max_history := 50 },
       some ("10 divided by 0 is undefined.")) := by
  refine ⟨fun a p => rfl, fun a => rfl, by decide⟩

/-- C9 (confirmed).  When the orchestrator dispatches a call named
`add` (resp. `multiply`) whose decoded arguments lack the `numbers` key
or carry an empty array, the tool is invoked with zero positional
arguments and the appended tool-result turn reports the empty-sum
identity 0 (resp. the empty-product identity 1) as a success text — not
an error and not a raised failure. -/
theorem C9_empty_variadic_identities (fs : FileSystemTools) (id : String) (args : ArgsObj)
    (h : lookupArg args "numbers" = none ∨
         lookupArg args "numbers" = some (JVal.arrNum [])) :
    dispatchOne (some (register_tools fs)) { id := id, name := "add", arguments := some args } =
      Except.ok (Turn.tool id "add" ("Result: 0\nCalculation:  = 0")) ∧
    dispatchOne (some (register_tools fs)) { id := id, name := "multiply", arguments := some args } =
      Except.ok (Turn.tool id "multiply" ("Result: 1\nCalculation:  = 1")) := by
  have hadd : get_tool (register_tools fs) "add" =
      some { function := addCallable, description := "Add numbers",
             parameters := ["*numbers"] } := rfl
  have hmul : get_tool (register_tools fs) "multiply" =
      some { function := multiplyCallable, description := "Multiply numbers",
             parameters := ["*numbers"] } := rfl
  constructor
  · unfold dispatchOne runTool
    dsimp only
    rw [hadd]
    dsimp only
    rcases h with h | h <;> rw [h] <;> rfl
  · unfold dispatchOne runTool
    dsimp only
    rw [hmul]
    dsimp only
    rcases h with h | h <;> rw [h] <;> rfl

/-- Witness for C9: decoded arguments with no `numbers` key at all. -/
theorem C9_empty_variadic_identities_witness :
    dispatchOne (some (register_tools fsU)) { id := "w9", name := "add", arguments := some [] } =
      Except.ok (Turn.tool "w9" "add" ("Result: 0\nCalculation:  = 0")) ∧
    dispatchOne (some (register_tools fsU)) { id := "w9", name := "multiply", arguments := some [] } =
      Except.ok (Turn.tool "w9" "multiply" ("Result: 1\nCalculation:  = 1")) :=
  C9_empty_variadic_identities fsU ("w9") [] (Or.inl rfl)

/-- C10 (confirmed).  For every integer `n`, the `factorial` tool
returns (never raises) the textual error
`"Error: Factorial undefined for negative numbers"` when `n < 0` and
`"Error: Factorial limited to n ≤ 20"` when `n > 20`, and for
`0 ≤ n ≤ 20` returns a success text beginning with `"Result: "`
followed by the exact decimal value of `n!`.  The registry's public
descriptor of the tool — description `"Calculate factorial"`,
parameter list `["n"]` — nowhere mentions the upper bound, which is
therefore an undocumented limit of the tool's interface. -/
theorem C10_factorial_bounds (n : ℤ) :
    factorialCallable (PyCall.kw [("n", JVal.num (n : ℚ))]) =
      Except.ok (CalculatorTools.factorial n) ∧
    (n < 0 →
      CalculatorTools.factorial n = "Error: Factorial undefined for negative numbers") ∧
    (20 < n →
      CalculatorTools.factorial n = "Error: Factorial limited to n ≤ 20") ∧
    (0 ≤ n → n ≤ 20 → ∃ rest : String,
      CalculatorTools.factorial n =
        ("Result: ") ++ toString (Nat.factorial n.toNat) ++ rest) ∧
    (∀ fs : FileSystemTools,
      (get_tool (register_tools fs) "factorial").map
        (fun t => (t.description, t.parameters)) = some ("Calculate factorial", ["n"])) := by
  refine ⟨rfl, ?_, ?_, ?_, fun fs => rfl⟩
  · intro h
    unfold CalculatorTools.factorial
    rw [if_pos h]
  · intro h
    unfold CalculatorTools.factorial
    rw [if_neg (by omega), if_pos (by omega)]
  · intro h1 h2
    unfold CalculatorTools.factorial
    rw [if_neg (by omega), if_neg (by omega)]
    exact ⟨_, str_append_assoc _ _ _⟩

/-- Witness for C10: the negative, above-bound and in-range cases at
`n = -3`, `n = 21` and `n = 6`. -/
theorem C10_factorial_bounds_witness :
    CalculatorTools.factorial (-3) = "Error: Factorial undefined for negative numbers" ∧
    CalculatorTools.factorial 21 = "Error: Factorial limited to n ≤ 20" ∧
    ∃ rest : String,
      CalculatorTools.factorial 6 =
        ("Result: ") ++ toString (Nat.factorial (Int.toNat 6)) ++ rest :=
  ⟨(C10_factorial_bounds (-3)).2.1 (by decide),
   (C10_factorial_bounds 21).2.2.1 (by decide),
   (C10_factorial_bounds 6).2.2.2.1 (by decide) (by decide)⟩
